import Mathlib

/-!
Shallow embedding of `utils/datasets/cifar100_dataset.py`: the CIFAR-100
preprocessing-pipeline builder.  Tensors are modelled as nested lists over ℚ
(float32 values), datasets as lists of records, and the external tensor
primitives (`tf.image.*`, `tf.data.Dataset.*`) as executable Lean functions
following the TensorFlow semantics the module relies on.  Randomness of the
random primitives is made explicit as a stream of naturals; the float square
root inside per-image standardization is modelled by `Rat.sqrt`.
-/

namespace Cifar100

/-- A raw uint8 image: rows of pixels of channel values (values 0..255). -/
abbrev UImage := List (List (List Nat))

/-- A float image: rows of pixels of channel values, as rationals. -/
abbrev QImage := List (List (List ℚ))

/-- One raw CIFAR-100 element, with fields in the declared schema order:
coarse label, 32×32×3 uint8 image, fine label. -/
structure RawRecord where
  coarse_label : Int
  image : UImage
  label : Int
deriving DecidableEq, Repr

/-- Python exceptions raised by the module: `TypeError` and `ValueError`. -/
inductive PyErr where
  | typeError : String → PyErr
  | valueError : String → PyErr
deriving DecidableEq, Repr

/-- Observable external effects of the assemblers; `loadData` marks the call
`tff.simulation.datasets.cifar100.load_data()`. -/
inductive Event where
  | loadData : Event
deriving DecidableEq, Repr

/-- `tf.cast(image, tf.float32)`: uint8 pixel values become floats. -/
def castImage (img : UImage) : QImage :=
  img.map (fun row => row.map (fun px => px.map (fun v => (v : ℚ))))

/-- One dimension of `tf.image.resize_with_crop_or_pad`: centered crop when
the list is at least `target` long (offset `(len - target) / 2`), otherwise
symmetric zero padding (`(target - len) / 2` elements before). -/
def cropOrPad1 (target : Nat) (zero : α) (l : List α) : List α :=
  if target ≤ l.length then
    (l.drop ((l.length - target) / 2)).take target
  else
    let before := (target - l.length) / 2
    List.replicate before zero ++ l ++ List.replicate (target - l.length - before) zero

/-- `tf.image.resize_with_crop_or_pad(image, target_height, target_width)` on a
3-D image: width is cropped-or-padded within each row, then height over the
rows, padding with zero pixels. -/
def resize_with_crop_or_pad (img : QImage) (targetHeight targetWidth : Nat) : QImage :=
  let channels := ((img.headD []).headD []).length
  let zeroPx : List ℚ := List.replicate channels 0
  let rows := img.map (cropOrPad1 targetWidth zeroPx)
  cropOrPad1 targetHeight (List.replicate targetWidth zeroPx) rows

/-- Slice `len` elements starting at `offset`. -/
def slice1 (offset len : Nat) (l : List α) : List α :=
  (l.drop offset).take len

/-- `tf.image.random_crop(image, size)` on a 3-D image with a size list read
positionally: a uniformly random offset is drawn in each dimension (modelled by
the rng stream) and a contiguous block of the requested size is sliced out. -/
def random_crop (size : List Int) (rng : List Nat) (img : QImage) : QImage :=
  let s0 := (size.getD 0 0).toNat
  let s1 := (size.getD 1 0).toNat
  let s2 := (size.getD 2 0).toNat
  let d0 := img.length
  let d1 := (img.headD []).length
  let d2 := ((img.headD []).headD []).length
  let o0 := rng.getD 0 0 % (d0 - s0 + 1)
  let o1 := rng.getD 1 0 % (d1 - s1 + 1)
  let o2 := rng.getD 2 0 % (d2 - s2 + 1)
  (slice1 o0 s0 img).map (fun row => (slice1 o1 s1 row).map (fun px => slice1 o2 s2 px))

/-- `tf.image.random_flip_left_right`: mirror the columns on a random coin. -/
def random_flip_left_right (coin : Nat) (img : QImage) : QImage :=
  if coin % 2 = 0 then img else img.map List.reverse

/-- `tf.image.per_image_standardization`: subtract the mean and divide by
`max(stddev, 1/sqrt(num_elements))`; the float square root is modelled by
`Rat.sqrt`. -/
def per_image_standardization (img : QImage) : QImage :=
  let elems := (img.map List.flatten).flatten
  let n : ℚ := (elems.length : ℚ)
  let mean := elems.sum / n
  let variance := (elems.map (fun x => (x - mean) ^ 2)).sum / n
  let adjusted := max (Rat.sqrt variance) (1 / Rat.sqrt n)
  img.map (fun row => row.map (fun px => px.map (fun x => (x - mean) / adjusted)))

/-- The `crop_fn` inner function of `build_image_map`: with `distort` a random
crop of size `crop_shape` followed by a random left-right flip (rng entries 0-2
feed the crop offsets, entry 3 the flip coin); without `distort` a resize via
`resize_with_crop_or_pad` with `target_height=crop_shape[1]` and
`target_width=crop_shape[2]`. -/
def crop_fn (crop_shape : List Int) (distort : Bool) (rng : List Nat)
    (image : QImage) : QImage :=
  if distort then
    random_flip_left_right (rng.getD 3 0) (random_crop crop_shape rng image)
  else
    resize_with_crop_or_pad image (crop_shape.getD 1 0).toNat (crop_shape.getD 2 0).toNat

/-- `build_image_map(crop_shape, distort)`: returns the `image_map` function
casting the image to float, applying `crop_fn`, standardizing, and pairing the
result with the fine label (the coarse label is dropped). -/
def build_image_map (crop_shape : List Int) (distort : Bool) :
    List Nat → RawRecord → QImage × Int :=
  fun rng ex =>
    (per_image_standardization (crop_fn crop_shape distort rng (castImage ex.image)),
      ex.label)

/-- `tf.image.random_crop` applied to a 4-D batch of images with a 4-entry
size list: one random offset per dimension (batch, height, width, channels),
then one contiguous slice of the requested size in every dimension. -/
def random_crop4 (size : List Int) (rng : List Nat) (imgs : List QImage) : List QImage :=
  let s0 := (size.getD 0 0).toNat
  let s1 := (size.getD 1 0).toNat
  let s2 := (size.getD 2 0).toNat
  let s3 := (size.getD 3 0).toNat
  let d0 := imgs.length
  let d1 := (imgs.headD []).length
  let d2 := ((imgs.headD []).headD []).length
  let d3 := (((imgs.headD []).headD []).headD []).length
  let o0 := rng.getD 0 0 % (d0 - s0 + 1)
  let o1 := rng.getD 1 0 % (d1 - s1 + 1)
  let o2 := rng.getD 2 0 % (d2 - s2 + 1)
  let o3 := rng.getD 3 0 % (d3 - s3 + 1)
  (slice1 o0 s0 imgs).map (fun im =>
    (slice1 o1 s1 im).map (fun row =>
      (slice1 o2 s2 row).map (fun px => slice1 o3 s3 px)))

/-- `tf.image.random_flip_left_right` on a 4-D batch: each image is mirrored
on its own coin (rng entries from index 4 on, after the crop offsets). -/
def random_flip4 (rng : List Nat) (imgs : List QImage) : List QImage :=
  imgs.mapIdx (fun i im => random_flip_left_right (rng.getD (4 + i) 0) im)

/-- The `image_map` closure of `build_image_map` as it is actually applied in
the pipeline, namely to a *batched* element (the map stage runs after
`batch`).  `tf.cast`, `resize_with_crop_or_pad` and
`per_image_standardization` act independently per image of the 4-D batch, so
they are mapped across it; `random_crop` acts on the whole 4-D tensor with the
4-entry crop shape, and the random flip draws one coin per image.  The result
pairs the processed image batch with the batch of fine labels. -/
def image_map_batched (crop_shape : List Int) (distort : Bool) (rng : List Nat)
    (batch : List RawRecord) : List QImage × List Int :=
  let imgs := batch.map (fun ex => castImage ex.image)
  let cropped :=
    if distort then
      random_flip4 rng (random_crop4 crop_shape rng imgs)
    else
      imgs.map (fun im =>
        resize_with_crop_or_pad im (crop_shape.getD 1 0).toNat (crop_shape.getD 2 0).toNat)
  (cropped.map per_image_standardization, batch.map (fun ex => ex.label))

/-- One step of `tf.data.Dataset.shuffle`'s buffer semantics: while the buffer
is nonempty, emit a random buffer element (index drawn from the rng stream
modulo the buffer size) and refill the buffer from the remaining input. -/
def shuffleLoop (buf rest : List α) (rs : List Nat) : List α :=
  match buf, rest with
  | [], _ => []
  | b0 :: btl, rest =>
    let i := rs.headD 0 % (btl.length + 1)
    let out := (b0 :: btl).getD i b0
    let remaining := (b0 :: btl).take i ++ (b0 :: btl).drop (i + 1)
    match rest with
    | [] => out :: shuffleLoop remaining [] rs.tail
    | r0 :: rtl => out :: shuffleLoop (remaining ++ [r0]) rtl rs.tail
termination_by buf.length + rest.length
decreasing_by
  all_goals
    have hi : rs.headD 0 % (btl.length + 1) < btl.length + 1 :=
      Nat.mod_lt _ (Nat.succ_pos _)
    simp only [List.length_append, List.length_take, List.length_drop,
      List.length_cons, List.length_nil]
    omega

/-- `tf.data.Dataset.shuffle(bufferSize)`: fill a buffer with the first
`bufferSize` elements, then run the buffered sampling loop. -/
def shuffle (bufferSize : Nat) (rs : List Nat) (ds : List α) : List α :=
  shuffleLoop (ds.take bufferSize) (ds.drop bufferSize) rs

/-- `tf.data.Dataset.repeat(n)`: the dataset concatenated `n` times. -/
def repeatN (n : Nat) (ds : List α) : List α :=
  (List.replicate n ds).flatten

/-- `tf.data.Dataset.batch(b)`: split into consecutive batches of `b` elements,
the last batch possibly smaller. -/
def batchN (b : Nat) (ds : List α) : List (List α) :=
  if _hb : b = 0 then []
  else
    match ds with
    | [] => []
    | d :: tl => (d :: tl).take b :: batchN b (tl.drop (b - 1))
termination_by ds.length
decreasing_by
  simp only [List.length_drop, List.length_cons]
  omega

/-- The shuffle-buffer-size normalization shared by all three builders:
`if shuffle_buffer_size <= 1: shuffle_buffer_size = 1`. -/
def normBuf (x : Int) : Int :=
  if x ≤ 1 then 1 else x

/-- The configuration captured by the `preprocess_fn` closure returned by
`create_preprocess_fn`, after its normalization of the shuffle buffer size. -/
structure PreprocessFn where
  num_epochs : Int
  batch_size : Int
  shuffle_buffer_size : Int
  crop_shape : List Int
  distort_image : Bool
deriving DecidableEq, Repr

/-- `create_preprocess_fn(num_epochs, batch_size, shuffle_buffer_size,
crop_shape, distort_image)`: raises `ValueError` when `num_epochs < 1`,
normalizes a shuffle buffer size `≤ 1` to `1`, and returns the pipeline
configuration. -/
def create_preprocess_fn (num_epochs batch_size shuffle_buffer_size : Int)
    (crop_shape : List Int) (distort_image : Bool) : Except PyErr PreprocessFn :=
  if num_epochs < 1 then
    .error (.valueError "num_epochs must be a positive integer.")
  else
    .ok ⟨num_epochs, batch_size, normBuf shuffle_buffer_size, crop_shape, distort_image⟩

/-- The inner `preprocess_fn(dataset)` of `create_preprocess_fn`:
`dataset.shuffle(shuffle_buffer_size).repeat(num_epochs).batch(batch_size)
.map(image_map_fn)`.  `shuffleRng` models the per-dataset shuffle seed and
`mapRng i` the randomness available to the map applied to the `i`-th batch. -/
def preprocess_fn (p : PreprocessFn) (shuffleRng : List Nat) (mapRng : Nat → List Nat)
    (dataset : List RawRecord) : List (List QImage × List Int) :=
  List.mapIdx (fun i b => image_map_batched p.crop_shape p.distort_image (mapRng i) b)
    (batchN p.batch_size.toNat
      (repeatN p.num_epochs.toNat
        (shuffle p.shuffle_buffer_size.toNat shuffleRng dataset)))

/-- The pair of preprocessing pipelines attached to the federated train and
test `ClientData` by `get_federated_datasets`. -/
structure FedResult where
  train_preprocess_fn : PreprocessFn
  test_preprocess_fn : PreprocessFn
deriving DecidableEq, Repr

/-- `get_federated_datasets`: validates the crop shape (the iterable and
boolean `isinstance` checks cannot fire for the `List Int`/`Bool` arguments of
the embedding), validates the epoch counts, normalizes the shuffle buffer
sizes, loads the federated CIFAR-100 data (logged as `Event.loadData`),
prepends each batch size to the crop shape, and builds the train pipeline with
`distort_image = not serializable` and the test pipeline without distortion.
The result pairs the event log with the outcome. -/
def get_federated_datasets (train_client_batch_size test_client_batch_size
    train_client_epochs_per_round test_client_epochs_per_round
    train_shuffle_buffer_size test_shuffle_buffer_size : Int)
    (crop_shape : List Int) (serializable : Bool) :
    List Event × Except PyErr FedResult :=
  if crop_shape.length ≠ 3 then
    ([], .error (.valueError "The crop_shape must have length 3, corresponding to a tensor of shape [height, width, channels]."))
  else if train_client_epochs_per_round < 1 then
    ([], .error (.valueError "train_client_epochs_per_round must be a positive integer."))
  else if test_client_epochs_per_round < 0 then
    ([], .error (.valueError "test_client_epochs_per_round must be a positive integer."))
  else
    let trainBuf := normBuf train_shuffle_buffer_size
    let testBuf := normBuf test_shuffle_buffer_size
    let train_crop_shape := train_client_batch_size :: crop_shape
    let test_crop_shape := test_client_batch_size :: crop_shape
    match create_preprocess_fn train_client_epochs_per_round train_client_batch_size
        trainBuf train_crop_shape (!serializable) with
    | .error e => ([.loadData], .error e)
    | .ok trainFn =>
      match create_preprocess_fn test_client_epochs_per_round test_client_batch_size
          testBuf test_crop_shape false with
      | .error e => ([.loadData], .error e)
      | .ok testFn => ([.loadData], .ok ⟨trainFn, testFn⟩)

/-- The pair of preprocessing pipelines `get_centralized_datasets` applies to
the pooled train and test datasets. -/
structure CentralResult where
  train_preprocess_fn : PreprocessFn
  test_preprocess_fn : PreprocessFn
deriving DecidableEq, Repr

/-- `get_centralized_datasets`: coerces the crop shape (a `List Int` input
always coerces, so only the length check can fail), normalizes the shuffle
buffer sizes, loads and pools the federated data (`Event.loadData`), prepends
each batch size to the crop shape, and builds one-epoch pipelines with
distortion always on for train and always off for test; each pipeline is then
applied to the pooled data by the external runtime. -/
def get_centralized_datasets (train_batch_size test_batch_size
    train_shuffle_buffer_size test_shuffle_buffer_size : Int)
    (crop_shape : List Int) : List Event × Except PyErr CentralResult :=
  if crop_shape.length ≠ 3 then
    ([], .error (.valueError "The crop_shape must have length 3, corresponding to a tensor of shape [height, width, channels]."))
  else
    let trainBuf := normBuf train_shuffle_buffer_size
    let testBuf := normBuf test_shuffle_buffer_size
    let train_crop_shape := train_batch_size :: crop_shape
    let test_crop_shape := test_batch_size :: crop_shape
    match create_preprocess_fn 1 train_batch_size trainBuf train_crop_shape true with
    | .error e => ([.loadData], .error e)
    | .ok trainFn =>
      match create_preprocess_fn 1 test_batch_size testBuf test_crop_shape false with
      | .error e => ([.loadData], .error e)
      | .ok testFn => ([.loadData], .ok ⟨trainFn, testFn⟩)

/-! ## Auxiliary lemmas -/

theorem shuffleLoop_singleton (a : α) (rest : List α) (rs : List Nat) :
    shuffleLoop [a] rest rs = a :: rest := by
  induction rest generalizing a rs with
  | nil => simp [shuffleLoop, Nat.mod_one]
  | cons r0 rtl ih => simp [shuffleLoop, Nat.mod_one, ih]

theorem shuffle_one (rs : List Nat) (ds : List α) : shuffle 1 rs ds = ds := by
  cases ds with
  | nil => simp [shuffle, shuffleLoop]
  | cons d tl => simp [shuffle, shuffleLoop_singleton]

theorem length_cropOrPad1 (t : Nat) (z : α) (l : List α) :
    (cropOrPad1 t z l).length = t := by
  by_cases h : t ≤ l.length
  · simp only [cropOrPad1, if_pos h, List.length_take, List.length_drop]
    omega
  · simp only [cropOrPad1, if_neg h, List.length_append, List.length_replicate]
    omega

theorem mem_cropOrPad1 {x : α} {t : Nat} {z : α} {l : List α}
    (hx : x ∈ cropOrPad1 t z l) : x ∈ l ∨ x = z := by
  by_cases h : t ≤ l.length
  · simp only [cropOrPad1, if_pos h] at hx
    exact Or.inl (List.mem_of_mem_drop (List.mem_of_mem_take hx))
  · simp only [cropOrPad1, if_neg h, List.mem_append, List.mem_replicate] at hx
    rcases hx with (⟨_, hz⟩ | hm) | ⟨_, hz⟩
    · exact Or.inr hz
    · exact Or.inl hm
    · exact Or.inr hz

theorem length_resize (img : QImage) (th tw : Nat) :
    (resize_with_crop_or_pad img th tw).length = th := by
  simp [resize_with_crop_or_pad, length_cropOrPad1]

theorem length_of_mem_resize {img : QImage} {th tw : Nat} {r : List (List ℚ)}
    (hr : r ∈ resize_with_crop_or_pad img th tw) : r.length = tw := by
  simp only [resize_with_crop_or_pad] at hr
  rcases mem_cropOrPad1 hr with hm | hz
  · rcases List.mem_map.mp hm with ⟨row, _, rfl⟩
    exact length_cropOrPad1 _ _ _
  · rw [hz, List.length_replicate]

theorem headD_length_resize (img : QImage) (th tw : Nat) (h : 0 < th) :
    ((resize_with_crop_or_pad img th tw).headD []).length = tw := by
  cases hres : resize_with_crop_or_pad img th tw with
  | nil =>
    have := length_resize img th tw
    rw [hres] at this
    simp at this
    omega
  | cons r rest =>
    have hr : r ∈ resize_with_crop_or_pad img th tw := by
      rw [hres]; exact List.mem_cons_self _ _
    simpa using length_of_mem_resize hr

theorem length_per_image_std (img : QImage) :
    (per_image_standardization img).length = img.length := by
  simp [per_image_standardization]

theorem headD_length_per_image_std (img : QImage) :
    ((per_image_standardization img).headD []).length = (img.headD []).length := by
  cases img <;> simp [per_image_standardization]

theorem normBuf_of_le {x : Int} (h : x ≤ 1) : normBuf x = 1 := by
  simp [normBuf, h]

theorem normBuf_idem (x : Int) : normBuf (normBuf x) = normBuf x := by
  unfold normBuf
  by_cases h : x ≤ 1 <;> simp [h]

theorem create_preprocess_fn_ok_iff {e bs b : Int} {s : List Int} {d : Bool}
    {p : PreprocessFn} :
    create_preprocess_fn e bs b s d = .ok p ↔
      1 ≤ e ∧ p = ⟨e, bs, normBuf b, s, d⟩ := by
  unfold create_preprocess_fn
  by_cases h : e < 1
  · simp only [if_pos h]
    constructor
    · intro hc
      exact absurd hc (by simp)
    · intro ⟨h1, _⟩
      omega
  · simp only [if_neg h]
    constructor
    · intro hc
      refine ⟨by omega, ?_⟩
      cases hc
      rfl
    · intro ⟨_, hp⟩
      rw [hp]

theorem fed_eq (tbs sbs te se tb sb : Int) (crop : List Int) (ser : Bool) :
    get_federated_datasets tbs sbs te se tb sb crop ser =
      if crop.length ≠ 3 then
        ([], .error (.valueError "The crop_shape must have length 3, corresponding to a tensor of shape [height, width, channels]."))
      else if te < 1 then
        ([], .error (.valueError "train_client_epochs_per_round must be a positive integer."))
      else if se < 0 then
        ([], .error (.valueError "test_client_epochs_per_round must be a positive integer."))
      else if se < 1 then
        ([.loadData], .error (.valueError "num_epochs must be a positive integer."))
      else
        ([.loadData], .ok ⟨⟨te, tbs, normBuf tb, tbs :: crop, !ser⟩,
                            ⟨se, sbs, normBuf sb, sbs :: crop, false⟩⟩) := by
  unfold get_federated_datasets
  by_cases h1 : crop.length ≠ 3
  · simp [h1]
  · simp only [if_neg h1]
    by_cases h2 : te < 1
    · simp [h2]
    · simp only [if_neg h2]
      by_cases h3 : se < 0
      · simp [h3]
      · simp only [if_neg h3]
        unfold create_preprocess_fn
        rw [if_neg h2]
        by_cases h4 : se < 1
        · simp [h4]
        · simp [h4, normBuf_idem]

theorem central_eq (tbs sbs tb sb : Int) (crop : List Int) :
    get_centralized_datasets tbs sbs tb sb crop =
      if crop.length ≠ 3 then
        ([], .error (.valueError "The crop_shape must have length 3, corresponding to a tensor of shape [height, width, channels]."))
      else
        ([.loadData], .ok ⟨⟨1, tbs, normBuf tb, tbs :: crop, true⟩,
                            ⟨1, sbs, normBuf sb, sbs :: crop, false⟩⟩) := by
  unfold get_centralized_datasets
  by_cases h1 : crop.length ≠ 3
  · simp [h1]
  · simp only [if_neg h1]
    unfold create_preprocess_fn
    norm_num [normBuf_idem]

theorem fed_ok_elim {tbs sbs te se tb sb : Int} {crop : List Int} {ser : Bool}
    {r : FedResult}
    (h : (get_federated_datasets tbs sbs te se tb sb crop ser).2 = .ok r) :
    r = ⟨⟨te, tbs, normBuf tb, tbs :: crop, !ser⟩,
          ⟨se, sbs, normBuf sb, sbs :: crop, false⟩⟩ := by
  rw [fed_eq] at h
  by_cases h1 : crop.length ≠ 3
  · rw [if_pos h1] at h
    exact absurd h (by simp)
  · rw [if_neg h1] at h
    by_cases h2 : te < 1
    · rw [if_pos h2] at h
      exact absurd h (by simp)
    · rw [if_neg h2] at h
      by_cases h3 : se < 0
      · rw [if_pos h3] at h
        exact absurd h (by simp)
      · rw [if_neg h3] at h
        by_cases h4 : se < 1
        · rw [if_pos h4] at h
          exact absurd h (by simp)
        · rw [if_neg h4] at h
          exact (Except.ok.inj h).symm

theorem central_ok_elim {tbs sbs tb sb : Int} {crop : List Int} {rc : CentralResult}
    (h : (get_centralized_datasets tbs sbs tb sb crop).2 = .ok rc) :
    rc = ⟨⟨1, tbs, normBuf tb, tbs :: crop, true⟩,
           ⟨1, sbs, normBuf sb, sbs :: crop, false⟩⟩ := by
  rw [central_eq] at h
  by_cases h1 : crop.length ≠ 3
  · rw [if_pos h1] at h
    exact absurd h (by simp)
  · rw [if_neg h1] at h
    exact (Except.ok.inj h).symm

/-! ## Concrete example values -/

/-- An all-zero 32×32×3 CIFAR image. -/
def img0 : UImage := List.replicate 32 (List.replicate 32 (List.replicate 3 0))

/-- A raw record carrying the all-zero 32×32×3 image. -/
def ex32 : RawRecord := ⟨0, img0, 5⟩

/-- A tiny 2×2×3 image for cheap evaluations. -/
def tiny : UImage := [[[1, 2, 3], [4, 5, 6]], [[7, 8, 9], [10, 11, 12]]]

/-- A raw record carrying the tiny image. -/
def exTiny : RawRecord := ⟨1, tiny, 7⟩

/-! ## Claims -/

/-- C1, counterexample: for the crop shape (32, 32, 3) the transform built by
`build_image_map` with `distort = false` does *not* resize the input to target
height 32 and target width 32: the resize targets are `crop_shape[1]` and
`crop_shape[2]`, so the output rows have width 3, not 32. -/
theorem claim_C1_counterexample :
    ((build_image_map [32, 32, 3] false [] ex32).1.headD []).length = 3
    ∧ ¬ (build_image_map [32, 32, 3] false [] ex32 =
          (per_image_standardization
            (resize_with_crop_or_pad (castImage ex32.image) 32 32),
            ex32.label)) := by
  have hunfold : (build_image_map [32, 32, 3] false [] ex32).1
      = per_image_standardization (resize_with_crop_or_pad (castImage ex32.image) 32 3) := rfl
  have h3 : ((build_image_map [32, 32, 3] false [] ex32).1.headD []).length = 3 := by
    rw [hunfold, headD_length_per_image_std, headD_length_resize _ _ _ (by norm_num)]
  refine ⟨h3, fun h => ?_⟩
  have hw := congrArg (fun t => (t.1.headD []).length) h
  dsimp only at hw
  rw [headD_length_per_image_std, headD_length_resize _ _ _ (by norm_num)] at hw
  rw [h3] at hw
  exact absurd hw (by norm_num)

/-- C1 (amended): for every crop shape, `build_image_map` with
`distort = false` maps an input record to the pair of the standardized
centered crop-or-pad of the cast image with target height `crop_shape[1]` and
target width `crop_shape[2]` (for a 3-tuple (h, w, c) these are w and c, not
h and w), together with the fine label; the output ignores the randomness
stream, its height is `crop_shape[1]`, and its rows have width
`crop_shape[2]`. -/
theorem claim_C1_amended (s : List Int) (rng rng' : List Nat) (ex : RawRecord) :
    build_image_map s false rng ex =
      (per_image_standardization
        (resize_with_crop_or_pad (castImage ex.image)
          (s.getD 1 0).toNat (s.getD 2 0).toNat),
        ex.label)
    ∧ build_image_map s false rng ex = build_image_map s false rng' ex
    ∧ (build_image_map s false rng ex).1.length = (s.getD 1 0).toNat
    ∧ (0 < (s.getD 1 0).toNat →
        ((build_image_map s false rng ex).1.headD []).length = (s.getD 2 0).toNat) := by
  refine ⟨rfl, rfl, ?_, fun h => ?_⟩
  · show (per_image_standardization
        (resize_with_crop_or_pad (castImage ex.image)
          (s.getD 1 0).toNat (s.getD 2 0).toNat)).length = (s.getD 1 0).toNat
    rw [length_per_image_std, length_resize]
  · show ((per_image_standardization
        (resize_with_crop_or_pad (castImage ex.image)
          (s.getD 1 0).toNat (s.getD 2 0).toNat)).headD []).length = (s.getD 2 0).toNat
    rw [headD_length_per_image_std, headD_length_resize _ _ _ h]

/-- C1, witness: for crop shape (2, 1, 3) the no-distort transform on the tiny
record yields an image of height 1 and row width 3. -/
theorem claim_C1_witness :
    (build_image_map [2, 1, 3] false [5] exTiny).1.length = 1
    ∧ ((build_image_map [2, 1, 3] false [5] exTiny).1.headD []).length = 3 :=
  ⟨(claim_C1_amended [2, 1, 3] [5] [] exTiny).2.2.1,
   (claim_C1_amended [2, 1, 3] [5] [] exTiny).2.2.2 (by norm_num)⟩

/-- C9: for any crop shape (h, w, 3) with h, w ≤ 32, the transform built with
`distort = false` is deterministic: its output does not depend on the
randomness stream, so two applications to the same record agree. -/
theorem claim_C9 (h w : Int) (rng₁ rng₂ : List Nat) (ex : RawRecord)
    (_hh : h ≤ 32) (_hw : w ≤ 32) :
    build_image_map [h, w, 3] false rng₁ ex = build_image_map [h, w, 3] false rng₂ ex := rfl

/-- C9, witness: determinism at crop shape (24, 28, 3) on the tiny record with
two different randomness streams. -/
theorem claim_C9_witness :
    build_image_map [24, 28, 3] false [1, 2, 3] exTiny
      = build_image_map [24, 28, 3] false [9] exTiny :=
  claim_C9 24 28 [1, 2, 3] [9] exTiny (by norm_num) (by norm_num)

/-- C2, counterexample: `get_federated_datasets` with
`test_client_epochs_per_round = 0` is *not* accepted: the dedicated `< 0`
check passes, but `create_preprocess_fn(num_epochs=0, ...)` for the test
pipeline then raises a `ValueError`, so the call does raise. -/
theorem claim_C2_counterexample :
    (get_federated_datasets 20 100 1 0 500 1 [32, 32, 3] false).2
      = .error (.valueError "num_epochs must be a positive integer.") := rfl

/-- C2 (amended): with a length-3 crop shape, `get_federated_datasets` raises
a value error when the train epoch count is below 1; the dedicated test-epoch
check raises exactly when the test epoch count is negative; but a test epoch
count of 0 still ends in a value error (raised later by
`create_preprocess_fn`), so the call succeeds exactly when both epoch counts
are at least 1. -/
theorem claim_C2_amended (tbs sbs te se tb sb : Int) (crop : List Int) (ser : Bool)
    (hcrop : crop.length = 3) :
    (te < 1 →
      (get_federated_datasets tbs sbs te se tb sb crop ser).2
        = .error (.valueError "train_client_epochs_per_round must be a positive integer."))
    ∧ (1 ≤ te → se < 0 →
      (get_federated_datasets tbs sbs te se tb sb crop ser).2
        = .error (.valueError "test_client_epochs_per_round must be a positive integer."))
    ∧ (1 ≤ te → se = 0 →
      (get_federated_datasets tbs sbs te se tb sb crop ser).2
        = .error (.valueError "num_epochs must be a positive integer."))
    ∧ (1 ≤ te → 1 ≤ se →
      (get_federated_datasets tbs sbs te se tb sb crop ser).2.isOk = true) := by
  refine ⟨fun h1 => ?_, fun h1 h2 => ?_, fun h1 h2 => ?_, fun h1 h2 => ?_⟩
  · rw [fed_eq]
    simp [hcrop, h1]
  · rw [fed_eq]
    simp [hcrop, h2, show ¬ te < 1 by omega, show se < 1 by omega]
  · rw [fed_eq]
    simp [hcrop, show ¬ te < 1 by omega, show ¬ se < 0 by omega, show se < 1 by omega]
  · rw [fed_eq]
    simp [hcrop, show ¬ te < 1 by omega, show ¬ se < 0 by omega, show ¬ se < 1 by omega,
      Except.isOk, Except.toBool]

/-- C2, witness: train epochs 0 raises the train error; test epochs -1 raises
the test error; train and test epochs ≥ 1 succeed. -/
theorem claim_C2_witness :
    (get_federated_datasets 20 100 0 1 500 1 [32, 32, 3] false).2
      = .error (.valueError "train_client_epochs_per_round must be a positive integer.")
    ∧ (get_federated_datasets 20 100 1 (-1) 500 1 [32, 32, 3] false).2
      = .error (.valueError "test_client_epochs_per_round must be a positive integer.")
    ∧ (get_federated_datasets 20 100 1 2 500 1 [32, 32, 3] false).2.isOk = true :=
  ⟨(claim_C2_amended 20 100 0 1 500 1 [32, 32, 3] false rfl).1 (by norm_num),
   (claim_C2_amended 20 100 1 (-1) 500 1 [32, 32, 3] false rfl).2.1 (by norm_num) (by norm_num),
   (claim_C2_amended 20 100 1 2 500 1 [32, 32, 3] false rfl).2.2.2 (by norm_num) (by norm_num)⟩

/-- C3: whenever `get_federated_datasets` succeeds, the train pipeline has
distortion enabled if and only if `serializable` is false, and the test
pipeline always has distortion disabled. -/
theorem claim_C3 (tbs sbs te se tb sb : Int) (crop : List Int) (ser : Bool)
    (r : FedResult)
    (h : (get_federated_datasets tbs sbs te se tb sb crop ser).2 = .ok r) :
    r.train_preprocess_fn.distort_image = !ser
    ∧ r.test_preprocess_fn.distort_image = false := by
  have hr := fed_ok_elim h
  subst hr
  exact ⟨rfl, rfl⟩

/-- C3, witness: a successful call with `serializable = true` yields a train
pipeline without distortion and a test pipeline without distortion. -/
theorem claim_C3_witness :
    (FedResult.mk ⟨1, 20, 500, [20, 32, 32, 3], false⟩
        ⟨1, 100, 1, [100, 32, 32, 3], false⟩).train_preprocess_fn.distort_image = !true
    ∧ (FedResult.mk ⟨1, 20, 500, [20, 32, 32, 3], false⟩
        ⟨1, 100, 1, [100, 32, 32, 3], false⟩).test_preprocess_fn.distort_image = false :=
  claim_C3 20 100 1 1 500 1 [32, 32, 3] true
    ⟨⟨1, 20, 500, [20, 32, 32, 3], false⟩, ⟨1, 100, 1, [100, 32, 32, 3], false⟩⟩ rfl

/-- C4: whenever `get_centralized_datasets` succeeds, both pipelines are built
with exactly one epoch, with distortion always enabled for the train pipeline
and always disabled for the test pipeline. -/
theorem claim_C4 (tbs sbs tb sb : Int) (crop : List Int) (rc : CentralResult)
    (h : (get_centralized_datasets tbs sbs tb sb crop).2 = .ok rc) :
    rc.train_preprocess_fn.num_epochs = 1
    ∧ rc.test_preprocess_fn.num_epochs = 1
    ∧ rc.train_preprocess_fn.distort_image = true
    ∧ rc.test_preprocess_fn.distort_image = false := by
  have hr := central_ok_elim h
  subst hr
  exact ⟨rfl, rfl, rfl, rfl⟩

/-- C4, witness: a successful centralized call yields one-epoch pipelines with
train distortion on and test distortion off. -/
theorem claim_C4_witness :
    (CentralResult.mk ⟨1, 20, 10000, [20, 32, 32, 3], true⟩
        ⟨1, 100, 1, [100, 32, 32, 3], false⟩).train_preprocess_fn.num_epochs = 1
    ∧ (CentralResult.mk ⟨1, 20, 10000, [20, 32, 32, 3], true⟩
        ⟨1, 100, 1, [100, 32, 32, 3], false⟩).test_preprocess_fn.num_epochs = 1
    ∧ (CentralResult.mk ⟨1, 20, 10000, [20, 32, 32, 3], true⟩
        ⟨1, 100, 1, [100, 32, 32, 3], false⟩).train_preprocess_fn.distort_image = true
    ∧ (CentralResult.mk ⟨1, 20, 10000, [20, 32, 32, 3], true⟩
        ⟨1, 100, 1, [100, 32, 32, 3], false⟩).test_preprocess_fn.distort_image = false :=
  claim_C4 20 100 10000 1 [32, 32, 3]
    ⟨⟨1, 20, 10000, [20, 32, 32, 3], true⟩, ⟨1, 100, 1, [100, 32, 32, 3], false⟩⟩ rfl

/-- C5: `create_preprocess_fn` fails with the invalid-argument value error
exactly when `num_epochs < 1`, and succeeds exactly when `num_epochs ≥ 1`
(in particular for `num_epochs = 1`). -/
theorem claim_C5 (e bs b : Int) (s : List Int) (d : Bool) :
    (create_preprocess_fn e bs b s d
        = .error (.valueError "num_epochs must be a positive integer.") ↔ e < 1)
    ∧ ((create_preprocess_fn e bs b s d).isOk = true ↔ 1 ≤ e) := by
  unfold create_preprocess_fn
  by_cases h : e < 1
  · rw [if_pos h]
    refine ⟨⟨fun _ => h, fun _ => rfl⟩, ?_⟩
    simp only [Except.isOk, Except.toBool]
    constructor
    · intro hc
      exact absurd hc (by simp)
    · intro hc
      omega
  · rw [if_neg h]
    refine ⟨⟨fun hc => absurd hc (by simp), fun hc => absurd hc h⟩, ?_⟩
    simp only [Except.isOk, Except.toBool]
    constructor
    · intro _
      omega
    · intro _
      trivial

/-- C6: the pipeline returned by `create_preprocess_fn` applies shuffle (with
the normalized buffer size), then repeat (with the epoch count), then batch
(with the batch size), then the per-element map with the image transform built
from the crop shape and distortion flag, in exactly this order; when the given
buffer size is ≤ 1 the shuffle stage leaves the dataset unchanged. -/
theorem claim_C6 (e bs b : Int) (s : List Int) (d : Bool) (p : PreprocessFn)
    (hok : create_preprocess_fn e bs b s d = .ok p)
    (sr : List Nat) (mr : Nat → List Nat) (ds : List RawRecord) :
    preprocess_fn p sr mr ds
      = List.mapIdx (fun i batch => image_map_batched s d (mr i) batch)
          (batchN bs.toNat (repeatN e.toNat (shuffle (normBuf b).toNat sr ds)))
    ∧ (b ≤ 1 →
        preprocess_fn p sr mr ds
          = List.mapIdx (fun i batch => image_map_batched s d (mr i) batch)
              (batchN bs.toNat (repeatN e.toNat ds))) := by
  obtain ⟨he, hp⟩ := create_preprocess_fn_ok_iff.mp hok
  subst hp
  refine ⟨rfl, fun hb => ?_⟩
  unfold preprocess_fn
  simp only [normBuf_of_le hb, Int.toNat_one, shuffle_one]

/-- C6, witness: the pipeline built from one epoch, batch size 2 and buffer
size 0 on a three-record dataset equals the staged composition, with and
without the (identity) shuffle stage. -/
theorem claim_C6_witness :
    preprocess_fn ⟨1, 2, 1, [2, 2, 3], false⟩ [3, 1] (fun _ => []) [exTiny, exTiny, exTiny]
      = List.mapIdx (fun i batch => image_map_batched [2, 2, 3] false ((fun _ => ([] : List Nat)) i) batch)
          (batchN (2 : Int).toNat
            (repeatN (1 : Int).toNat (shuffle (normBuf 0).toNat [3, 1] [exTiny, exTiny, exTiny])))
    ∧ ((0 : Int) ≤ 1 →
        preprocess_fn ⟨1, 2, 1, [2, 2, 3], false⟩ [3, 1] (fun _ => []) [exTiny, exTiny, exTiny]
          = List.mapIdx (fun i batch => image_map_batched [2, 2, 3] false ((fun _ => ([] : List Nat)) i) batch)
              (batchN (2 : Int).toNat (repeatN (1 : Int).toNat [exTiny, exTiny, exTiny]))) :=
  claim_C6 1 2 0 [2, 2, 3] false ⟨1, 2, 1, [2, 2, 3], false⟩ rfl [3, 1]
    (fun _ => []) [exTiny, exTiny, exTiny]

/-- C7: a shuffle-buffer-size argument ≤ 1 is normalized to exactly 1 in
`create_preprocess_fn`, `get_federated_datasets` and
`get_centralized_datasets` — each function returns the same value as with a
buffer size of exactly 1, no error is introduced, and a successful pipeline
records buffer size 1. -/
theorem claim_C7 (e bs b tbs sbs te se tb sb : Int) (crop : List Int) (d ser : Bool)
    (hb : b ≤ 1) (htb : tb ≤ 1) (hsb : sb ≤ 1) :
    create_preprocess_fn e bs b crop d = create_preprocess_fn e bs 1 crop d
    ∧ get_federated_datasets tbs sbs te se tb sb crop ser
        = get_federated_datasets tbs sbs te se 1 1 crop ser
    ∧ get_centralized_datasets tbs sbs tb sb crop
        = get_centralized_datasets tbs sbs 1 1 crop
    ∧ (∀ p, create_preprocess_fn e bs b crop d = .ok p → p.shuffle_buffer_size = 1) := by
  have hb1 : normBuf b = normBuf 1 := by
    rw [normBuf_of_le hb, normBuf_of_le le_rfl]
  have htb1 : normBuf tb = normBuf 1 := by
    rw [normBuf_of_le htb, normBuf_of_le le_rfl]
  have hsb1 : normBuf sb = normBuf 1 := by
    rw [normBuf_of_le hsb, normBuf_of_le le_rfl]
  refine ⟨?_, ?_, ?_, ?_⟩
  · unfold create_preprocess_fn
    rw [hb1]
  · rw [fed_eq, fed_eq, htb1, hsb1]
  · rw [central_eq, central_eq, htb1, hsb1]
  · intro p hp
    obtain ⟨_, hp⟩ := create_preprocess_fn_ok_iff.mp hp
    rw [hp]
    exact normBuf_of_le hb

/-- C7, witness: buffer size 0 and buffer size 1 yield identical results for
the pipeline builder and the centralized assembler. -/
theorem claim_C7_witness :
    create_preprocess_fn 3 4 0 [16, 16, 3] true = create_preprocess_fn 3 4 1 [16, 16, 3] true
    ∧ get_centralized_datasets 7 8 0 1 [16, 16, 3]
        = get_centralized_datasets 7 8 1 1 [16, 16, 3] :=
  ⟨(claim_C7 3 4 0 7 8 1 1 0 1 [16, 16, 3] true false (by norm_num) (by norm_num)
      (by norm_num)).1,
   (claim_C7 3 4 0 7 8 1 1 0 1 [16, 16, 3] true false (by norm_num) (by norm_num)
      (by norm_num)).2.2.1⟩

/-- C8, counterexample: `get_federated_datasets` with a test epoch count of 0
raises an epoch-bounds value error only *after* the dataset load has been
triggered, contradicting the claim that every argument-validation error
precedes the load. -/
theorem claim_C8_counterexample :
    (get_federated_datasets 20 100 1 0 500 1 [32, 32, 3] false).1 = [Event.loadData]
    ∧ (get_federated_datasets 20 100 1 0 500 1 [32, 32, 3] false).2
        = .error (.valueError "num_epochs must be a positive integer.") :=
  ⟨rfl, rfl⟩

/-- C8 (amended): every error raised by the two functions' own validation
blocks precedes the dataset load — `get_centralized_datasets` never loads on
any error (in particular a length-2 crop shape fails with a value error and no
load attempt), and `get_federated_datasets` loads before an error only in the
single case where validation passed and the test epoch count is 0, where the
num-epochs value error is raised by `create_preprocess_fn` after the load. -/
theorem claim_C8_amended :
    (∀ (tbs sbs tb sb : Int) (crop : List Int),
        (get_centralized_datasets tbs sbs tb sb crop).2.isOk = false →
        (get_centralized_datasets tbs sbs tb sb crop).1 = [])
    ∧ (∀ (tbs sbs te se tb sb : Int) (crop : List Int) (ser : Bool),
        (get_federated_datasets tbs sbs te se tb sb crop ser).2.isOk = false → se ≠ 0 →
        (get_federated_datasets tbs sbs te se tb sb crop ser).1 = [])
    ∧ (∀ (tbs sbs te se tb sb : Int) (crop : List Int) (ser : Bool),
        crop.length = 3 → 1 ≤ te → se = 0 →
        get_federated_datasets tbs sbs te se tb sb crop ser
          = ([Event.loadData], .error (.valueError "num_epochs must be a positive integer.")))
    ∧ get_centralized_datasets 20 100 10000 1 [32, 32]
        = ([], .error (.valueError "The crop_shape must have length 3, corresponding to a tensor of shape [height, width, channels].")) := by
  refine ⟨?_, ?_, ?_, rfl⟩
  · intro tbs sbs tb sb crop h
    rw [central_eq] at h ⊢
    by_cases h1 : crop.length ≠ 3
    · rw [if_pos h1]
    · rw [if_neg h1] at h
      exact absurd h (by simp [Except.isOk, Except.toBool])
  · intro tbs sbs te se tb sb crop ser h hse
    rw [fed_eq] at h ⊢
    by_cases h1 : crop.length ≠ 3
    · rw [if_pos h1]
    · rw [if_neg h1] at h ⊢
      by_cases h2 : te < 1
      · rw [if_pos h2]
      · rw [if_neg h2] at h ⊢
        by_cases h3 : se < 0
        · rw [if_pos h3]
        · rw [if_neg h3] at h ⊢
          by_cases h4 : se < 1
          · omega
          · rw [if_neg h4] at h
            exact absurd h (by simp [Except.isOk, Except.toBool])
  · intro tbs sbs te se tb sb crop ser hcrop hte hse
    rw [fed_eq]
    simp [hcrop, show ¬ te < 1 by omega, show ¬ se < 0 by omega, show se < 1 by omega]

/-- C8, witness: a centralized error yields no load; validated federated
arguments with test epochs 0 load and then fail; a federated train-epoch
error yields no load. -/
theorem claim_C8_witness :
    (get_centralized_datasets 20 100 1 1 ([32, 32] : List Int)).1 = []
    ∧ get_federated_datasets 5 6 2 0 1 1 [8, 8, 3] true
        = ([Event.loadData], .error (.valueError "num_epochs must be a positive integer."))
    ∧ (get_federated_datasets 5 6 0 1 1 1 [8, 8, 3] true).1 = [] :=
  ⟨claim_C8_amended.1 20 100 1 1 [32, 32] (by decide),
   claim_C8_amended.2.2.1 5 6 2 0 1 1 [8, 8, 3] true rfl (by norm_num) rfl,
   claim_C8_amended.2.1 5 6 0 1 1 1 [8, 8, 3] true (by decide) (by norm_num)⟩

/-- C10: in every successful call of `get_federated_datasets` and
`get_centralized_datasets` the crop shape handed to `create_preprocess_fn` is
the caller's 3-tuple with the corresponding batch size prepended, so the
no-distort resize targets (shape indices 1 and 2) are the caller's height and
width; a direct call of the transform with a bare 3-tuple (h, w, c) instead
resizes to height w and width c. -/
theorem claim_C10 :
    (∀ (tbs sbs te se tb sb : Int) (crop : List Int) (ser : Bool) (r : FedResult),
        (get_federated_datasets tbs sbs te se tb sb crop ser).2 = .ok r →
        r.train_preprocess_fn.crop_shape = tbs :: crop
        ∧ r.test_preprocess_fn.crop_shape = sbs :: crop)
    ∧ (∀ (tbs sbs tb sb : Int) (crop : List Int) (rc : CentralResult),
        (get_centralized_datasets tbs sbs tb sb crop).2 = .ok rc →
        rc.train_preprocess_fn.crop_shape = tbs :: crop
        ∧ rc.test_preprocess_fn.crop_shape = sbs :: crop)
    ∧ (∀ (bsz h w c : Int) (rng : List Nat) (img : QImage),
        crop_fn [bsz, h, w, c] false rng img
          = resize_with_crop_or_pad img h.toNat w.toNat
        ∧ crop_fn [h, w, c] false rng img
          = resize_with_crop_or_pad img w.toNat c.toNat) := by
  refine ⟨?_, ?_, ?_⟩
  · intro tbs sbs te se tb sb crop ser r h
    have hr := fed_ok_elim h
    subst hr
    exact ⟨rfl, rfl⟩
  · intro tbs sbs tb sb crop rc h
    have hr := central_ok_elim h
    subst hr
    exact ⟨rfl, rfl⟩
  · intro bsz h w c rng img
    exact ⟨rfl, rfl⟩

/-- C10, witness: a successful federated call with batch sizes 20 and 100
records the 4-tuple crop shapes; with a batch size of 10 prepended to
(2, 3, 4) the no-distort transform resizes to height 2 and width 3, while the
bare 3-tuple (2, 3, 4) resizes to height 3 and width 4. -/
theorem claim_C10_witness :
    ((FedResult.mk ⟨1, 20, 500, [20, 32, 32, 3], true⟩
        ⟨1, 100, 1, [100, 32, 32, 3], false⟩).train_preprocess_fn.crop_shape
          = 20 :: [32, 32, 3]
      ∧ (FedResult.mk ⟨1, 20, 500, [20, 32, 32, 3], true⟩
        ⟨1, 100, 1, [100, 32, 32, 3], false⟩).test_preprocess_fn.crop_shape
          = 100 :: [32, 32, 3])
    ∧ (crop_fn [10, 2, 3, 4] false [7] (castImage tiny)
        = resize_with_crop_or_pad (castImage tiny) 2 3
      ∧ crop_fn [2, 3, 4] false [7] (castImage tiny)
        = resize_with_crop_or_pad (castImage tiny) 3 4) :=
  ⟨claim_C10.1 20 100 1 1 500 1 [32, 32, 3] false
      ⟨⟨1, 20, 500, [20, 32, 32, 3], true⟩, ⟨1, 100, 1, [100, 32, 32, 3], false⟩⟩ rfl,
   claim_C10.2.2 10 2 3 4 [7] (castImage tiny)⟩

end Cifar100
